import Mathlib

/-!
Shallow embedding of the lead-scoring service core: the `PredictRequest`
schema (src/app/src/config.py), the `POST /predict/` handler
(src/app/backend/main.py) and the client-side `combine_data` utility
(src/app/src/utils.py).

Raw input values are JSON-typed scalars as they arrive from an untyped
JSON body.  Validation follows pydantic v2's default (lax) mode, which is
what a plain `BaseModel` with `model_dump` uses: integer fields accept
ints, integral floats and integer strings; float fields accept numbers
and numeric strings; boolean fields accept booleans, the ints/floats
0 and 1, and a fixed set of case-insensitive truthiness strings.
Python floats are modelled as rationals.
-/

/-- A scalar value of an untyped JSON / Python record field. -/
inductive JsonVal where
  | jint (n : ℤ)
  | jnum (q : ℚ)
  | jbool (b : Bool)
  | jstr (s : String)
  | jnull
  deriving DecidableEq

/-- `PredictRequest` (src/app/src/config.py): the validated, fully typed
prediction record with its sixteen declared fields. -/
structure PredictRequest where
  age : ℤ
  website_visits : ℤ
  time_spent_on_website : ℚ
  page_views_per_visit : ℚ
  current_occupation_student : Bool
  current_occupation_unemployed : Bool
  first_interaction_website : Bool
  profile_completed_low : Bool
  profile_completed_medium : Bool
  last_activity_phone : Bool
  last_activity_website : Bool
  print_media_type1_yes : Bool
  print_media_type2_yes : Bool
  digital_media_yes : Bool
  educational_channels_yes : Bool
  referral_yes : Bool
  deriving DecidableEq

/-- A raw (pre-validation) record: the sixteen declared fields with
JSON-typed values, as passed to `PredictRequest(**entry)`. -/
structure RawRecord where
  age : JsonVal
  website_visits : JsonVal
  time_spent_on_website : JsonVal
  page_views_per_visit : JsonVal
  current_occupation_student : JsonVal
  current_occupation_unemployed : JsonVal
  first_interaction_website : JsonVal
  profile_completed_low : JsonVal
  profile_completed_medium : JsonVal
  last_activity_phone : JsonVal
  last_activity_website : JsonVal
  print_media_type1_yes : JsonVal
  print_media_type2_yes : JsonVal
  digital_media_yes : JsonVal
  educational_channels_yes : JsonVal
  referral_yes : JsonVal
  deriving DecidableEq

/-- One field-level validation error: field name and message. -/
abbrev FieldError := String × String

/-- Fold a digit list into a natural number; `none` on a non-digit. -/
def parseDigitsAux : List Char → ℕ → Option ℕ
  | [], acc => some acc
  | c :: cs, acc =>
      if c.isDigit then parseDigitsAux cs (acc * 10 + (c.toNat - '0'.toNat))
      else none

/-- Parse a decimal string (optional sign, digits, optional fraction)
into a rational, as pydantic's lax string-to-number coercion does. -/
def parseDecimal (s : String) : Option ℚ :=
  let cs := s.data
  let signed : Bool × List Char :=
    match cs with
    | '-' :: t => (true, t)
    | '+' :: t => (false, t)
    | t => (false, t)
  let neg := signed.1
  let body := signed.2
  let ip := body.takeWhile Char.isDigit
  match body.dropWhile Char.isDigit with
  | [] =>
      if ip.isEmpty then none
      else (parseDigitsAux ip 0).map fun n =>
        if neg then -(n : ℚ) else (n : ℚ)
  | '.' :: fp =>
      if (ip.isEmpty ∧ fp.isEmpty) ∨ ¬ fp.all Char.isDigit then none
      else
        match parseDigitsAux ip 0, parseDigitsAux fp 0 with
        | some i, some f =>
            let q : ℚ := (i : ℚ) + (f : ℚ) / ((10 : ℚ) ^ fp.length)
            some (if neg then -q else q)
        | _, _ => none
  | _ => none

/-- pydantic v2 lax coercion into an `int` field: ints pass, integral
floats are narrowed, integer strings are parsed, everything else is a
type error. -/
def coerceInt : JsonVal → Except String ℤ
  | .jint n => .ok n
  | .jnum q =>
      if q.den = 1 then .ok q.num
      else .error "Input should be a valid integer, got a number with a fractional part"
  | .jstr s =>
      match s.toInt? with
      | some n => .ok n
      | none => .error "Input should be a valid integer, unable to parse string as an integer"
  | _ => .error "Input should be a valid integer"

/-- pydantic v2 lax coercion into a `float` field. -/
def coerceFloat : JsonVal → Except String ℚ
  | .jnum q => .ok q
  | .jint n => .ok (n : ℚ)
  | .jstr s =>
      match parseDecimal s with
      | some q => .ok q
      | none => .error "Input should be a valid number, unable to parse string as a number"
  | _ => .error "Input should be a valid number"

/-- The lowercased strings pydantic-core coerces to `True`. -/
def truthyStrings : List (List Char) :=
  ["true".data, "t".data, "yes".data, "y".data, "on".data, "1".data]

/-- The lowercased strings pydantic-core coerces to `False`. -/
def falsyStrings : List (List Char) :=
  ["false".data, "f".data, "no".data, "n".data, "off".data, "0".data]

/-- pydantic-core's case-insensitive truthiness strings for `bool`. -/
def str_to_bool (s : String) : Option Bool :=
  if s.data.map Char.toLower ∈ truthyStrings then some true
  else if s.data.map Char.toLower ∈ falsyStrings then some false
  else none

/-- pydantic v2 lax coercion into a `bool` field: booleans pass, the
ints/floats 0 and 1 and recognised truthiness strings are coerced. -/
def coerceBool : JsonVal → Except String Bool
  | .jbool b => .ok b
  | .jint n =>
      if n = 0 then .ok false
      else if n = 1 then .ok true
      else .error "Input should be a valid boolean, unable to interpret input"
  | .jnum q =>
      if q = 0 then .ok false
      else if q = 1 then .ok true
      else .error "Input should be a valid boolean, unable to interpret input"
  | .jstr s =>
      match str_to_bool s with
      | some b => .ok b
      | none => .error "Input should be a valid boolean, unable to interpret input"
  | .jnull => .error "Input should be a valid boolean"

/-- `age: int = Field(ge=0, le=100)`. -/
def validate_age (v : JsonVal) : Except FieldError ℤ :=
  match coerceInt v with
  | .error m => .error ("age", m)
  | .ok n =>
      if n < 0 then .error ("age", "Input should be greater than or equal to 0")
      else if 100 < n then .error ("age", "Input should be less than or equal to 100")
      else .ok n

/-- `website_visits: int = Field(ge=0)`. -/
def validate_website_visits (v : JsonVal) : Except FieldError ℤ :=
  match coerceInt v with
  | .error m => .error ("website_visits", m)
  | .ok n =>
      if n < 0 then .error ("website_visits", "Input should be greater than or equal to 0")
      else .ok n

/-- `float = Field(ge=0)` fields (`time_spent_on_website`,
`page_views_per_visit`). -/
def validate_nonneg_float (name : String) (v : JsonVal) : Except FieldError ℚ :=
  match coerceFloat v with
  | .error m => .error (name, m)
  | .ok q =>
      if q < 0 then .error (name, "Input should be greater than or equal to 0")
      else .ok q

/-- A plain `bool` field. -/
def validate_bool (name : String) (v : JsonVal) : Except FieldError Bool :=
  match coerceBool v with
  | .error m => .error (name, m)
  | .ok b => .ok b

/-- The twelve boolean fields of a raw record, by name, in declaration
order. -/
def boolFields (raw : RawRecord) : List (String × JsonVal) :=
  [("current_occupation_student", raw.current_occupation_student),
   ("current_occupation_unemployed", raw.current_occupation_unemployed),
   ("first_interaction_website", raw.first_interaction_website),
   ("profile_completed_low", raw.profile_completed_low),
   ("profile_completed_medium", raw.profile_completed_medium),
   ("last_activity_phone", raw.last_activity_phone),
   ("last_activity_website", raw.last_activity_website),
   ("print_media_type1_yes", raw.print_media_type1_yes),
   ("print_media_type2_yes", raw.print_media_type2_yes),
   ("digital_media_yes", raw.digital_media_yes),
   ("educational_channels_yes", raw.educational_channels_yes),
   ("referral_yes", raw.referral_yes)]

/-- Applicative step of pydantic validation: apply the partial
constructor to the next field's result, accumulating every field error
in declaration order (pydantic reports all failing fields at once). -/
def vseq {α β : Type} (f : Except (List FieldError) (α → β))
    (x : Except FieldError α) : Except (List FieldError) β :=
  match f, x with
  | .ok g, .ok a => .ok (g a)
  | .ok _, .error e => .error [e]
  | .error es, .ok _ => .error es
  | .error es, .error e => .error (es ++ [e])

/-- `PredictRequest(**entry)`: validate all sixteen fields, producing
the typed record or the aggregated list of field errors. -/
def validateRecord (r : RawRecord) : Except (List FieldError) PredictRequest :=
  vseq (vseq (vseq (vseq (vseq (vseq (vseq (vseq (vseq (vseq (vseq (vseq (vseq (vseq (vseq (vseq
    (.ok PredictRequest.mk)
    (validate_age r.age))
    (validate_website_visits r.website_visits))
    (validate_nonneg_float "time_spent_on_website" r.time_spent_on_website))
    (validate_nonneg_float "page_views_per_visit" r.page_views_per_visit))
    (validate_bool "current_occupation_student" r.current_occupation_student))
    (validate_bool "current_occupation_unemployed" r.current_occupation_unemployed))
    (validate_bool "first_interaction_website" r.first_interaction_website))
    (validate_bool "profile_completed_low" r.profile_completed_low))
    (validate_bool "profile_completed_medium" r.profile_completed_medium))
    (validate_bool "last_activity_phone" r.last_activity_phone))
    (validate_bool "last_activity_website" r.last_activity_website))
    (validate_bool "print_media_type1_yes" r.print_media_type1_yes))
    (validate_bool "print_media_type2_yes" r.print_media_type2_yes))
    (validate_bool "digital_media_yes" r.digital_media_yes))
    (validate_bool "educational_channels_yes" r.educational_channels_yes))
    (validate_bool "referral_yes" r.referral_yes)

/-- The handler's `[PredictRequest(**entry.dict()) for entry in request]`:
records are validated in order and the first failing record's
`ValidationError` propagates. -/
def validateBatch : List RawRecord → Except (List FieldError) (List PredictRequest)
  | [] => .ok []
  | r :: rs =>
      match validateRecord r with
      | .error es => .error es
      | .ok v =>
          match validateBatch rs with
          | .error es => .error es
          | .ok vs => .ok (v :: vs)

/-- `str(ve)`: render the aggregated validation error, one line per
failing field, naming the field and the violated constraint. -/
def renderErrors : List FieldError → String
  | [] => ""
  | e :: es => e.1 ++ ": " ++ e.2 ++ "\n" ++ renderErrors es

/-- `entry.dict()` on a validated record: the fields as typed Python
values, ready to be re-validated by `PredictRequest(**entry.dict())`. -/
def dictOf (r : PredictRequest) : RawRecord where
  age := .jint r.age
  website_visits := .jint r.website_visits
  time_spent_on_website := .jnum r.time_spent_on_website
  page_views_per_visit := .jnum r.page_views_per_visit
  current_occupation_student := .jbool r.current_occupation_student
  current_occupation_unemployed := .jbool r.current_occupation_unemployed
  first_interaction_website := .jbool r.first_interaction_website
  profile_completed_low := .jbool r.profile_completed_low
  profile_completed_medium := .jbool r.profile_completed_medium
  last_activity_phone := .jbool r.last_activity_phone
  last_activity_website := .jbool r.last_activity_website
  print_media_type1_yes := .jbool r.print_media_type1_yes
  print_media_type2_yes := .jbool r.print_media_type2_yes
  digital_media_yes := .jbool r.digital_media_yes
  educational_channels_yes := .jbool r.educational_channels_yes
  referral_yes := .jbool r.referral_yes

/-- numpy's round-half-to-even on a rational. -/
def roundHalfEven (q : ℚ) : ℤ :=
  if q - ⌊q⌋ < 1/2 then ⌊q⌋
  else if 1/2 < q - ⌊q⌋ then ⌊q⌋ + 1
  else if ⌊q⌋ % 2 = 0 then ⌊q⌋ else ⌊q⌋ + 1

/-- `probability.round(3)`: round to three decimal places. -/
def round3 (q : ℚ) : ℚ := (roundHalfEven (q * 1000) : ℚ) / 1000

/-- Round both entries of a `predict_proba` row. -/
def round3pair (p : ℚ × ℚ) : ℚ × ℚ := (round3 p.1, round3 p.2)

/-- The external model loaded from `model.pkl`, an opaque collaborator:
`predict` and `predict_proba` take the feature matrix (the validated
records in input order) and either return a column per record or raise
(modelled as `Except.error` carrying the exception text). -/
structure Model where
  predict : List PredictRequest → Except String (List ℤ)
  predict_proba : List PredictRequest → Except String (List (ℚ × ℚ))

/-- A model that never raises and scores each record independently, as
the spec's opaque `predict(features) -> (label, probability)`. -/
def rowModel (f : PredictRequest → ℤ) (g : PredictRequest → ℚ × ℚ) : Model where
  predict := fun rs => .ok (rs.map f)
  predict_proba := fun rs => .ok (rs.map g)

/-- The HTTP outcome of `POST /predict/`: the 200 JSON body
`{"prediction": [...], "probability": [[p0,p1], ...]}`, FastAPI's 422
request-validation response carrying a structured detail list (one item
per error, with the record index, the field name and the message), or an
`HTTPException` with a status code and a `detail` string. -/
inductive Response where
  | success (prediction : List ℤ) (probability : List (ℚ × ℚ))
  | validationError (status : ℕ) (detail : List (ℕ × FieldError))
  | error (status : ℕ) (detail : String)
  deriving DecidableEq

/-- FastAPI's parsing of the `List[PredictRequest]` request body,
starting at record index `i`: pydantic validates every element and
aggregates all errors, each located by its record index (the `loc`
`("body", i, field)` of the 422 detail). -/
def parseBodyFrom (i : ℕ) : List RawRecord → Except (List (ℕ × FieldError)) (List PredictRequest)
  | [] => .ok []
  | r :: rs =>
      match validateRecord r, parseBodyFrom (i + 1) rs with
      | .ok v, .ok vs => .ok (v :: vs)
      | .ok _, .error ds => .error ds
      | .error es, .ok _ => .error (es.map fun e => (i, e))
      | .error es, .error ds => .error (es.map (fun e => (i, e)) ++ ds)

/-- FastAPI's validation of the whole posted body, before the handler
body runs. -/
def parseBody (request : List RawRecord) :
    Except (List (ℕ × FieldError)) (List PredictRequest) :=
  parseBodyFrom 0 request

/-- The body of the `predict` handler (src/app/backend/main.py), which
receives the already-parsed `List[PredictRequest]`: it re-validates via
`PredictRequest(**entry.dict())` (a `ValidationError` here would become
HTTP 400 with `str(ve)` as detail — a branch that is unreachable from
the endpoint, since the entries already passed the same validation),
builds the feature matrix in input order, invokes the model's `predict`
and `predict_proba`, rounds probabilities to 3 decimals; any other
exception becomes HTTP 500 with the fixed detail "Prediction error"
(the cause is only logged). -/
def predictHandler (model : Model) (request : List PredictRequest) : Response :=
  match validateBatch (request.map dictOf) with
  | .error ve => .error 400 (renderErrors ve)
  | .ok validated_data =>
      match model.predict validated_data with
      | .error _ => .error 500 "Prediction error"
      | .ok prediction =>
          match model.predict_proba validated_data with
          | .error _ => .error 500 "Prediction error"
          | .ok probability =>
              .success prediction (probability.map round3pair)

/-- The observable behaviour of `POST /predict/`: FastAPI validates the
body against `List[PredictRequest]` first and answers HTTP 422 with the
structured detail list if any record is invalid (no custom exception
handler is installed); only a fully valid body reaches the handler. -/
def predict (model : Model) (request : List RawRecord) : Response :=
  match parseBody request with
  | .error detail => .validationError 422 detail
  | .ok entries => predictHandler model entries

/-- The DataFrame built by `combine_data`: the input rows plus the
`prediction` and `probability` columns. -/
structure Frame (α : Type) where
  rows : List α
  prediction : List ℤ
  probability : List ℚ
  deriving DecidableEq

/-- Python list indexing `l[i]`: non-negative indices from the front,
negative indices from the back, `IndexError` (`none`) out of range. -/
def pyIndex {β : Type} (l : List β) (i : ℤ) : Option β :=
  if 0 ≤ i then l.get? i.toNat
  else if (-i).toNat ≤ l.length then l.get? (l.length - (-i).toNat)
  else none

/-- `[prob[pred] for pred, prob in zip(predictions, probabilities)]`:
`none` when some `prob[pred]` raises `IndexError`. -/
def probColumn : List ℤ → List (List ℚ) → Option (List ℚ)
  | p :: ps, pr :: prs =>
      match pyIndex pr p with
      | none => none
      | some q => (probColumn ps prs).map (q :: ·)
  | _, _ => some []

/-- `combine_data` (src/app/src/utils.py): guard against `None` inputs
and length mismatches, return an empty DataFrame for empty inputs, else
attach the `prediction` column and the probability of the predicted
class; any exception is caught and returned as an error message.  The
Python function returns the pair `(dataframe_or_None, error_or_None)`. -/
def combine_data {α : Type} (input_data : Option (List α))
    (predictions : Option (List ℤ)) (probabilities : Option (List (List ℚ))) :
    Option (Frame α) × Option String :=
  match input_data, predictions, probabilities with
  | none, _, _ => (none, some "Missing input data, predictions, or probabilities")
  | _, none, _ => (none, some "Missing input data, predictions, or probabilities")
  | _, _, none => (none, some "Missing input data, predictions, or probabilities")
  | some inp, some preds, some probs =>
      if inp.length ≠ preds.length ∨ inp.length ≠ probs.length then
        (none, some "Length mismatch between input data, predictions, and probabilities")
      else if inp.length = 0 ∧ preds.length = 0 ∧ probs.length = 0 then
        (some ⟨[], [], []⟩, none)
      else
        match probColumn preds probs with
        | none => (none, some "Error combining data: list index out of range")
        | some pcol => (some ⟨inp, preds, pcol⟩, none)

/-! ### Helper lemmas about field and record validation -/

lemma vseq_ok_elim {α β : Type} {f : Except (List FieldError) (α → β)}
    {x : Except FieldError α} {b : β} (h : vseq f x = .ok b) :
    ∃ g a, f = .ok g ∧ x = .ok a ∧ g a = b := by
  cases f <;> cases x <;> simp [vseq] at h ⊢
  exact h

lemma vseq_error_ne_nil {α β : Type} {f : Except (List FieldError) (α → β)}
    {x : Except FieldError α}
    (hf : ∀ es, f = .error es → es ≠ []) :
    ∀ es, vseq f x = .error es → es ≠ [] := by
  intro es h
  cases f with
  | ok g =>
      cases x with
      | ok a => simp [vseq] at h
      | error e => simp [vseq] at h; simp [← h]
  | error es' =>
      have hne := hf es' rfl
      cases x with
      | ok a => simp [vseq] at h; simp [← h]; exact hne
      | error e => simp [vseq] at h; simp [← h]

lemma vseq_error_mem {α β : Type} {f : Except (List FieldError) (α → β)}
    {x : Except FieldError α} {e : FieldError}
    (hf : ∃ es, f = .error es ∧ e ∈ es) :
    ∃ es', vseq f x = .error es' ∧ e ∈ es' := by
  obtain ⟨es, hfe, hmem⟩ := hf
  subst hfe
  cases x with
  | ok a => exact ⟨es, rfl, hmem⟩
  | error e' => exact ⟨es ++ [e'], rfl, by simp [hmem]⟩

lemma vseq_error_last {α β : Type} {f : Except (List FieldError) (α → β)}
    {x : Except FieldError α} {e : FieldError} (hx : x = .error e) :
    ∃ es', vseq f x = .error es' ∧ e ∈ es' := by
  subst hx
  cases f with
  | ok g => exact ⟨[e], rfl, by simp⟩
  | error es => exact ⟨es ++ [e], rfl, by simp⟩

lemma validate_age_ok_bounds {v : JsonVal} {n : ℤ}
    (h : validate_age v = .ok n) : 0 ≤ n ∧ n ≤ 100 := by
  unfold validate_age at h
  rcases hc : coerceInt v with m | m <;> rw [hc] at h
  · simp at h
  · by_cases h0 : m < 0
    · simp [h0] at h
    · by_cases h100 : 100 < m
      · simp [h0, h100] at h
      · simp [h0, h100] at h
        omega

lemma validate_website_visits_ok_bounds {v : JsonVal} {n : ℤ}
    (h : validate_website_visits v = .ok n) : 0 ≤ n := by
  unfold validate_website_visits at h
  rcases hc : coerceInt v with m | m <;> rw [hc] at h
  · simp at h
  · by_cases h0 : m < 0
    · simp [h0] at h
    · simp [h0] at h
      omega

lemma validate_nonneg_float_ok_bounds {name : String} {v : JsonVal} {q : ℚ}
    (h : validate_nonneg_float name v = .ok q) : 0 ≤ q := by
  unfold validate_nonneg_float at h
  rcases hc : coerceFloat v with p | p <;> rw [hc] at h
  · simp at h
  · by_cases h0 : p < 0
    · simp [h0] at h
    · simp [h0] at h
      subst h
      exact le_of_not_lt h0

lemma validate_age_jint {n : ℤ} (h0 : 0 ≤ n) (h100 : n ≤ 100) :
    validate_age (.jint n) = .ok n := by
  unfold validate_age coerceInt
  simp [not_lt_of_ge h0, not_lt.mpr h100]

lemma validate_website_visits_jint {n : ℤ} (h0 : 0 ≤ n) :
    validate_website_visits (.jint n) = .ok n := by
  unfold validate_website_visits coerceInt
  simp [not_lt_of_ge h0]

lemma validate_nonneg_float_jnum {name : String} {q : ℚ} (h0 : 0 ≤ q) :
    validate_nonneg_float name (.jnum q) = .ok q := by
  unfold validate_nonneg_float coerceFloat
  simp [not_lt_of_ge h0]

lemma validate_bool_jbool (name : String) (b : Bool) :
    validate_bool name (.jbool b) = .ok b := rfl

lemma validateRecord_ok_elim {raw : RawRecord} {r : PredictRequest}
    (h : validateRecord raw = .ok r) :
    validate_age raw.age = .ok r.age ∧
    validate_website_visits raw.website_visits = .ok r.website_visits ∧
    validate_nonneg_float "time_spent_on_website" raw.time_spent_on_website = .ok r.time_spent_on_website ∧
    validate_nonneg_float "page_views_per_visit" raw.page_views_per_visit = .ok r.page_views_per_visit ∧
    validate_bool "current_occupation_student" raw.current_occupation_student = .ok r.current_occupation_student ∧
    validate_bool "current_occupation_unemployed" raw.current_occupation_unemployed = .ok r.current_occupation_unemployed ∧
    validate_bool "first_interaction_website" raw.first_interaction_website = .ok r.first_interaction_website ∧
    validate_bool "profile_completed_low" raw.profile_completed_low = .ok r.profile_completed_low ∧
    validate_bool "profile_completed_medium" raw.profile_completed_medium = .ok r.profile_completed_medium ∧
    validate_bool "last_activity_phone" raw.last_activity_phone = .ok r.last_activity_phone ∧
    validate_bool "last_activity_website" raw.last_activity_website = .ok r.last_activity_website ∧
    validate_bool "print_media_type1_yes" raw.print_media_type1_yes = .ok r.print_media_type1_yes ∧
    validate_bool "print_media_type2_yes" raw.print_media_type2_yes = .ok r.print_media_type2_yes ∧
    validate_bool "digital_media_yes" raw.digital_media_yes = .ok r.digital_media_yes ∧
    validate_bool "educational_channels_yes" raw.educational_channels_yes = .ok r.educational_channels_yes ∧
    validate_bool "referral_yes" raw.referral_yes = .ok r.referral_yes := by
  unfold validateRecord at h
  obtain ⟨g16, a16, h16, hb16, e16⟩ := vseq_ok_elim h
  obtain ⟨g15, a15, h15, hb15, e15⟩ := vseq_ok_elim h16
  obtain ⟨g14, a14, h14, hb14, e14⟩ := vseq_ok_elim h15
  obtain ⟨g13, a13, h13, hb13, e13⟩ := vseq_ok_elim h14
  obtain ⟨g12, a12, h12, hb12, e12⟩ := vseq_ok_elim h13
  obtain ⟨g11, a11, h11, hb11, e11⟩ := vseq_ok_elim h12
  obtain ⟨g10, a10, h10, hb10, e10⟩ := vseq_ok_elim h11
  obtain ⟨g9, a9, h9, hb9, e9⟩ := vseq_ok_elim h10
  obtain ⟨g8, a8, h8, hb8, e8⟩ := vseq_ok_elim h9
  obtain ⟨g7, a7, h7, hb7, e7⟩ := vseq_ok_elim h8
  obtain ⟨g6, a6, h6, hb6, e6⟩ := vseq_ok_elim h7
  obtain ⟨g5, a5, h5, hb5, e5⟩ := vseq_ok_elim h6
  obtain ⟨g4, a4, h4, hb4, e4⟩ := vseq_ok_elim h5
  obtain ⟨g3, a3, h3, hb3, e3⟩ := vseq_ok_elim h4
  obtain ⟨g2, a2, h2, hb2, e2⟩ := vseq_ok_elim h3
  obtain ⟨g1, a1, h1, hb1, e1⟩ := vseq_ok_elim h2
  injection h1 with hmk
  subst hmk
  subst e1
  subst e2
  subst e3
  subst e4
  subst e5
  subst e6
  subst e7
  subst e8
  subst e9
  subst e10
  subst e11
  subst e12
  subst e13
  subst e14
  subst e15
  subst e16
  exact ⟨hb1, hb2, hb3, hb4, hb5, hb6, hb7, hb8, hb9, hb10, hb11, hb12,
    hb13, hb14, hb15, hb16⟩

lemma validateRecord_ok_bounds {raw : RawRecord} {r : PredictRequest}
    (h : validateRecord raw = .ok r) :
    0 ≤ r.age ∧ r.age ≤ 100 ∧ 0 ≤ r.website_visits ∧
    0 ≤ r.time_spent_on_website ∧ 0 ≤ r.page_views_per_visit := by
  obtain ⟨h1, h2, h3, h4, -⟩ := validateRecord_ok_elim h
  obtain ⟨hage0, hage1⟩ := validate_age_ok_bounds h1
  exact ⟨hage0, hage1, validate_website_visits_ok_bounds h2,
    validate_nonneg_float_ok_bounds h3, validate_nonneg_float_ok_bounds h4⟩

lemma validateRecord_error_ne_nil {raw : RawRecord} {es : List FieldError}
    (h : validateRecord raw = .error es) : es ≠ [] := by
  unfold validateRecord at h
  exact vseq_error_ne_nil (vseq_error_ne_nil (vseq_error_ne_nil (vseq_error_ne_nil (vseq_error_ne_nil (vseq_error_ne_nil (vseq_error_ne_nil (vseq_error_ne_nil (vseq_error_ne_nil (vseq_error_ne_nil (vseq_error_ne_nil (vseq_error_ne_nil (vseq_error_ne_nil (vseq_error_ne_nil (vseq_error_ne_nil (vseq_error_ne_nil (fun es' h' => Except.noConfusion h')))))))))))))))) es h

lemma validateRecord_error_age {raw : RawRecord} {e : FieldError}
    (h : validate_age raw.age = .error e) :
    ∃ es, validateRecord raw = .error es ∧ e ∈ es := by
  unfold validateRecord
  exact vseq_error_mem (vseq_error_mem (vseq_error_mem (vseq_error_mem (vseq_error_mem (vseq_error_mem (vseq_error_mem (vseq_error_mem (vseq_error_mem (vseq_error_mem (vseq_error_mem (vseq_error_mem (vseq_error_mem (vseq_error_mem (vseq_error_mem (⟨[e], by rw [h]; rfl, by simp⟩)))))))))))))))

lemma validateRecord_error_referral {raw : RawRecord} {e : FieldError}
    (h : validate_bool "referral_yes" raw.referral_yes = .error e) :
    ∃ es, validateRecord raw = .error es ∧ e ∈ es := by
  unfold validateRecord
  exact vseq_error_last h

lemma validateRecord_error_website_visits {raw : RawRecord} {e : FieldError}
    (h : validate_website_visits raw.website_visits = .error e) :
    ∃ es, validateRecord raw = .error es ∧ e ∈ es := by
  unfold validateRecord
  exact vseq_error_mem (vseq_error_mem (vseq_error_mem (vseq_error_mem (vseq_error_mem (vseq_error_mem (vseq_error_mem (vseq_error_mem (vseq_error_mem (vseq_error_mem (vseq_error_mem (vseq_error_mem (vseq_error_mem (vseq_error_mem (vseq_error_last h))))))))))))))

lemma validateRecord_error_current_occupation_student {raw : RawRecord} {e : FieldError}
    (h : validate_bool "current_occupation_student" raw.current_occupation_student = .error e) :
    ∃ es, validateRecord raw = .error es ∧ e ∈ es := by
  unfold validateRecord
  exact vseq_error_mem (vseq_error_mem (vseq_error_mem (vseq_error_mem (vseq_error_mem (vseq_error_mem (vseq_error_mem (vseq_error_mem (vseq_error_mem (vseq_error_mem (vseq_error_mem (vseq_error_last h)))))))))))

lemma validateRecord_error_current_occupation_unemployed {raw : RawRecord} {e : FieldError}
    (h : validate_bool "current_occupation_unemployed" raw.current_occupation_unemployed = .error e) :
    ∃ es, validateRecord raw = .error es ∧ e ∈ es := by
  unfold validateRecord
  exact vseq_error_mem (vseq_error_mem (vseq_error_mem (vseq_error_mem (vseq_error_mem (vseq_error_mem (vseq_error_mem (vseq_error_mem (vseq_error_mem (vseq_error_mem (vseq_error_last h))))))))))

lemma validateRecord_error_first_interaction_website {raw : RawRecord} {e : FieldError}
    (h : validate_bool "first_interaction_website" raw.first_interaction_website = .error e) :
    ∃ es, validateRecord raw = .error es ∧ e ∈ es := by
  unfold validateRecord
  exact vseq_error_mem (vseq_error_mem (vseq_error_mem (vseq_error_mem (vseq_error_mem (vseq_error_mem (vseq_error_mem (vseq_error_mem (vseq_error_mem (vseq_error_last h)))))))))

lemma validateRecord_error_profile_completed_low {raw : RawRecord} {e : FieldError}
    (h : validate_bool "profile_completed_low" raw.profile_completed_low = .error e) :
    ∃ es, validateRecord raw = .error es ∧ e ∈ es := by
  unfold validateRecord
  exact vseq_error_mem (vseq_error_mem (vseq_error_mem (vseq_error_mem (vseq_error_mem (vseq_error_mem (vseq_error_mem (vseq_error_mem (vseq_error_last h))))))))

lemma validateRecord_error_profile_completed_medium {raw : RawRecord} {e : FieldError}
    (h : validate_bool "profile_completed_medium" raw.profile_completed_medium = .error e) :
    ∃ es, validateRecord raw = .error es ∧ e ∈ es := by
  unfold validateRecord
  exact vseq_error_mem (vseq_error_mem (vseq_error_mem (vseq_error_mem (vseq_error_mem (vseq_error_mem (vseq_error_mem (vseq_error_last h)))))))

lemma validateRecord_error_last_activity_phone {raw : RawRecord} {e : FieldError}
    (h : validate_bool "last_activity_phone" raw.last_activity_phone = .error e) :
    ∃ es, validateRecord raw = .error es ∧ e ∈ es := by
  unfold validateRecord
  exact vseq_error_mem (vseq_error_mem (vseq_error_mem (vseq_error_mem (vseq_error_mem (vseq_error_mem (vseq_error_last h))))))

lemma validateRecord_error_last_activity_website {raw : RawRecord} {e : FieldError}
    (h : validate_bool "last_activity_website" raw.last_activity_website = .error e) :
    ∃ es, validateRecord raw = .error es ∧ e ∈ es := by
  unfold validateRecord
  exact vseq_error_mem (vseq_error_mem (vseq_error_mem (vseq_error_mem (vseq_error_mem (vseq_error_last h)))))

lemma validateRecord_error_print_media_type1_yes {raw : RawRecord} {e : FieldError}
    (h : validate_bool "print_media_type1_yes" raw.print_media_type1_yes = .error e) :
    ∃ es, validateRecord raw = .error es ∧ e ∈ es := by
  unfold validateRecord
  exact vseq_error_mem (vseq_error_mem (vseq_error_mem (vseq_error_mem (vseq_error_last h))))

lemma validateRecord_error_print_media_type2_yes {raw : RawRecord} {e : FieldError}
    (h : validate_bool "print_media_type2_yes" raw.print_media_type2_yes = .error e) :
    ∃ es, validateRecord raw = .error es ∧ e ∈ es := by
  unfold validateRecord
  exact vseq_error_mem (vseq_error_mem (vseq_error_mem (vseq_error_last h)))

lemma validateRecord_error_digital_media_yes {raw : RawRecord} {e : FieldError}
    (h : validate_bool "digital_media_yes" raw.digital_media_yes = .error e) :
    ∃ es, validateRecord raw = .error es ∧ e ∈ es := by
  unfold validateRecord
  exact vseq_error_mem (vseq_error_mem (vseq_error_last h))

lemma validateRecord_error_educational_channels_yes {raw : RawRecord} {e : FieldError}
    (h : validate_bool "educational_channels_yes" raw.educational_channels_yes = .error e) :
    ∃ es, validateRecord raw = .error es ∧ e ∈ es := by
  unfold validateRecord
  exact vseq_error_mem (vseq_error_last h)

lemma validate_bool_ok_of_coerce {v : JsonVal} {b : Bool} (name : String)
    (h : coerceBool v = .ok b) : validate_bool name v = .ok b := by
  unfold validate_bool
  rw [h]

lemma validate_bool_error_of_coerce {v : JsonVal} {m : String} (name : String)
    (h : coerceBool v = .error m) : validate_bool name v = .error (name, m) := by
  unfold validate_bool
  rw [h]

lemma validateRecord_of_fields {raw : RawRecord} {a w : ℤ} {t pv : ℚ}
    {b₁ b₂ b₃ b₄ b₅ b₆ b₇ b₈ b₉ b₁₀ b₁₁ b₁₂ : Bool}
    (h1 : validate_age raw.age = .ok a)
    (h2 : validate_website_visits raw.website_visits = .ok w)
    (h3 : validate_nonneg_float "time_spent_on_website" raw.time_spent_on_website = .ok t)
    (h4 : validate_nonneg_float "page_views_per_visit" raw.page_views_per_visit = .ok pv)
    (h5 : validate_bool "current_occupation_student" raw.current_occupation_student = .ok b₁)
    (h6 : validate_bool "current_occupation_unemployed" raw.current_occupation_unemployed = .ok b₂)
    (h7 : validate_bool "first_interaction_website" raw.first_interaction_website = .ok b₃)
    (h8 : validate_bool "profile_completed_low" raw.profile_completed_low = .ok b₄)
    (h9 : validate_bool "profile_completed_medium" raw.profile_completed_medium = .ok b₅)
    (h10 : validate_bool "last_activity_phone" raw.last_activity_phone = .ok b₆)
    (h11 : validate_bool "last_activity_website" raw.last_activity_website = .ok b₇)
    (h12 : validate_bool "print_media_type1_yes" raw.print_media_type1_yes = .ok b₈)
    (h13 : validate_bool "print_media_type2_yes" raw.print_media_type2_yes = .ok b₉)
    (h14 : validate_bool "digital_media_yes" raw.digital_media_yes = .ok b₁₀)
    (h15 : validate_bool "educational_channels_yes" raw.educational_channels_yes = .ok b₁₁)
    (h16 : validate_bool "referral_yes" raw.referral_yes = .ok b₁₂) :
    validateRecord raw =
      .ok ⟨a, w, t, pv, b₁, b₂, b₃, b₄, b₅, b₆, b₇, b₈, b₉, b₁₀, b₁₁, b₁₂⟩ := by
  unfold validateRecord
  rw [h1, h2, h3, h4, h5, h6, h7, h8, h9, h10, h11, h12, h13, h14, h15, h16]
  simp [vseq]

lemma validateRecord_typed (a w : ℤ) (t pv : ℚ) (b₁ b₂ b₃ b₄ b₅ b₆ b₇ b₈ b₉ b₁₀ b₁₁ b₁₂ : Bool)
    (ha0 : 0 ≤ a) (ha1 : a ≤ 100) (hw : 0 ≤ w) (ht : 0 ≤ t) (hpv : 0 ≤ pv) :
    validateRecord ⟨.jint a, .jint w, .jnum t, .jnum pv, .jbool b₁, .jbool b₂,
      .jbool b₃, .jbool b₄, .jbool b₅, .jbool b₆, .jbool b₇, .jbool b₈,
      .jbool b₉, .jbool b₁₀, .jbool b₁₁, .jbool b₁₂⟩ =
    .ok ⟨a, w, t, pv, b₁, b₂, b₃, b₄, b₅, b₆, b₇, b₈, b₉, b₁₀, b₁₁, b₁₂⟩ := by
  unfold validateRecord
  simp only [validate_age_jint ha0 ha1, validate_website_visits_jint hw,
    validate_nonneg_float_jnum ht, validate_nonneg_float_jnum hpv,
    validate_bool_jbool, vseq]

/-! ### Helper lemmas about batch validation and error rendering -/

lemma validateBatch_nil : validateBatch [] = .ok [] := rfl

lemma validateBatch_cons (r : RawRecord) (rs : List RawRecord) :
    validateBatch (r :: rs) =
      match validateRecord r with
      | .error es => .error es
      | .ok v =>
          match validateBatch rs with
          | .error es => .error es
          | .ok vs => .ok (v :: vs) := rfl

lemma validateBatch_ok_length {req : List RawRecord} {vs : List PredictRequest}
    (h : validateBatch req = .ok vs) : vs.length = req.length := by
  induction req generalizing vs with
  | nil =>
      rw [validateBatch_nil] at h
      simp at h
      simp [← h]
  | cons r rs ih =>
      rw [validateBatch_cons] at h
      rcases hr : validateRecord r with es | v <;> rw [hr] at h
      · simp at h
      · rcases hb : validateBatch rs with es | vs' <;> rw [hb] at h
        · simp at h
        · simp at h
          simp [← h, ih hb]

lemma validateBatch_ok_get {req : List RawRecord} {vs : List PredictRequest}
    (h : validateBatch req = .ok vs) :
    ∀ i (hi : i < req.length) (hv : i < vs.length),
      validateRecord (req.get ⟨i, hi⟩) = .ok (vs.get ⟨i, hv⟩) := by
  induction req generalizing vs with
  | nil => intro i hi; simp at hi
  | cons r rs ih =>
      rw [validateBatch_cons] at h
      rcases hr : validateRecord r with es | v <;> rw [hr] at h
      · simp at h
      · rcases hb : validateBatch rs with es | vs' <;> rw [hb] at h
        · simp at h
        · simp at h
          subst h
          intro i hi hv
          cases i with
          | zero => simpa using hr
          | succ j =>
              simp only [List.get]
              exact ih hb j (by simpa using hi) (by simpa using hv)

lemma validateBatch_error_of_mem {req : List RawRecord} {r : RawRecord}
    {es : List FieldError} (hmem : r ∈ req) (hr : validateRecord r = .error es) :
    ∃ errs, validateBatch req = .error errs ∧ errs ≠ [] := by
  induction req with
  | nil => simp at hmem
  | cons hd tl ih =>
      rw [validateBatch_cons]
      rcases hhd : validateRecord hd with es' | v
      · exact ⟨es', rfl, validateRecord_error_ne_nil hhd⟩
      · rcases List.mem_cons.mp hmem with hmem' | hmem'
        · rw [hmem'] at hr
          rw [hhd] at hr
          exact absurd hr (by simp)
        · obtain ⟨errs, hb, hne⟩ := ih hmem'
          rw [hb]
          exact ⟨errs, rfl, hne⟩

lemma renderErrors_mem_infix {es : List FieldError} {e : FieldError} (hmem : e ∈ es) :
    ∃ pre post, renderErrors es = pre ++ (e.1 ++ ": " ++ e.2) ++ post := by
  induction es with
  | nil => simp at hmem
  | cons hd tl ih =>
      rcases List.mem_cons.mp hmem with rfl | hmem'
      · exact ⟨"", "\n" ++ renderErrors tl,
          by simp [renderErrors, String.append_assoc, String.empty_append]⟩
      · obtain ⟨pre, post, hp⟩ := ih hmem'
        exact ⟨hd.1 ++ ": " ++ hd.2 ++ "\n" ++ pre, post,
          by simp [renderErrors, hp, String.append_assoc]⟩

/-! ### Helper lemmas about rounding and the endpoint -/

lemma roundHalfEven_bounds (q : ℚ) :
    q - 1/2 ≤ (roundHalfEven q : ℚ) ∧ (roundHalfEven q : ℚ) ≤ q + 1/2 := by
  unfold roundHalfEven
  have h1 : (⌊q⌋ : ℚ) ≤ q := Int.floor_le q
  have h2 : q < ⌊q⌋ + 1 := Int.lt_floor_add_one q
  split_ifs with ha hb hc <;> constructor <;> push_cast <;> linarith

lemma roundHalfEven_nonneg {q : ℚ} (h : 0 ≤ q) : 0 ≤ roundHalfEven q := by
  have hb := (roundHalfEven_bounds q).1
  by_contra hneg
  push_neg at hneg
  have h1 : roundHalfEven q ≤ -1 := by omega
  have h2 : (roundHalfEven q : ℚ) ≤ -1 := by exact_mod_cast h1
  linarith

lemma roundHalfEven_le_of_le {q : ℚ} {n : ℤ} (h : q ≤ n) : roundHalfEven q ≤ n := by
  have hb := (roundHalfEven_bounds q).2
  by_contra hgt
  push_neg at hgt
  have h1 : n + 1 ≤ roundHalfEven q := by omega
  have h2 : ((n : ℚ) + 1) ≤ (roundHalfEven q : ℚ) := by exact_mod_cast h1
  linarith

lemma round3_bounds (q : ℚ) : q - 1/2000 ≤ round3 q ∧ round3 q ≤ q + 1/2000 := by
  obtain ⟨h1, h2⟩ := roundHalfEven_bounds (q * 1000)
  unfold round3
  constructor
  · rw [le_div_iff₀ (by norm_num : (0:ℚ) < 1000)]
    linarith
  · rw [div_le_iff₀ (by norm_num : (0:ℚ) < 1000)]
    linarith

lemma round3_nonneg {q : ℚ} (h : 0 ≤ q) : 0 ≤ round3 q := by
  unfold round3
  have h1 : (0 : ℚ) ≤ q * 1000 := by positivity
  have h2 := roundHalfEven_nonneg h1
  positivity

lemma round3_le_one {q : ℚ} (h : q ≤ 1) : round3 q ≤ 1 := by
  unfold round3
  rw [div_le_one (by norm_num)]
  have : roundHalfEven (q * 1000) ≤ (1000 : ℤ) :=
    roundHalfEven_le_of_le (by push_cast; linarith)
  exact_mod_cast this

lemma round3_sum {p p' : ℚ} (h : p + p' = 1) :
    |round3 p + round3 p' - 1| ≤ 1/1000 := by
  obtain ⟨ha1, ha2⟩ := round3_bounds p
  obtain ⟨hb1, hb2⟩ := round3_bounds p'
  rw [abs_le]
  constructor <;> linarith

lemma dictOf_revalidates {raw : RawRecord} {r : PredictRequest}
    (h : validateRecord raw = .ok r) : validateRecord (dictOf r) = .ok r := by
  obtain ⟨h0, h1, h2, h3, h4⟩ := validateRecord_ok_bounds h
  exact validateRecord_typed r.age r.website_visits r.time_spent_on_website
    r.page_views_per_visit r.current_occupation_student r.current_occupation_unemployed
    r.first_interaction_website r.profile_completed_low r.profile_completed_medium
    r.last_activity_phone r.last_activity_website r.print_media_type1_yes
    r.print_media_type2_yes r.digital_media_yes r.educational_channels_yes
    r.referral_yes h0 h1 h2 h3 h4

lemma validateBatch_map_dictOf {req : List RawRecord} {vs : List PredictRequest}
    (h : validateBatch req = .ok vs) :
    validateBatch (vs.map dictOf) = .ok vs := by
  induction req generalizing vs with
  | nil =>
      rw [validateBatch_nil] at h
      simp at h
      subst h
      rfl
  | cons r rs ih =>
      rw [validateBatch_cons] at h
      rcases hr : validateRecord r with es | v <;> rw [hr] at h
      · simp at h
      · rcases hb : validateBatch rs with es | vs' <;> rw [hb] at h
        · simp at h
        · simp at h
          rw [← h, List.map_cons, validateBatch_cons, dictOf_revalidates hr, ih hb]

lemma parseBodyFrom_nil (i : ℕ) : parseBodyFrom i [] = .ok [] := rfl

lemma parseBodyFrom_cons (i : ℕ) (r : RawRecord) (rs : List RawRecord) :
    parseBodyFrom i (r :: rs) =
      match validateRecord r, parseBodyFrom (i + 1) rs with
      | .ok v, .ok vs => .ok (v :: vs)
      | .ok _, .error ds => .error ds
      | .error es, .ok _ => .error (es.map fun e => (i, e))
      | .error es, .error ds => .error (es.map (fun e => (i, e)) ++ ds) := rfl

lemma parseBodyFrom_ok_of_validateBatch {req : List RawRecord} {vs : List PredictRequest}
    (i : ℕ) (h : validateBatch req = .ok vs) : parseBodyFrom i req = .ok vs := by
  induction req generalizing i vs with
  | nil =>
      rw [validateBatch_nil] at h
      simp at h
      simp [← h, parseBodyFrom_nil]
  | cons r rs ih =>
      rw [validateBatch_cons] at h
      rcases hr : validateRecord r with es | v <;> rw [hr] at h
      · simp at h
      · rcases hb : validateBatch rs with es | vs' <;> rw [hb] at h
        · simp at h
        · simp at h
          rw [parseBodyFrom_cons, hr, ih (i + 1) hb, ← h]

lemma validateBatch_ok_of_parseBodyFrom {req : List RawRecord} {vs : List PredictRequest}
    (i : ℕ) (h : parseBodyFrom i req = .ok vs) : validateBatch req = .ok vs := by
  induction req generalizing i vs with
  | nil =>
      rw [parseBodyFrom_nil] at h
      simp at h
      simp [← h, validateBatch_nil]
  | cons r rs ih =>
      rw [parseBodyFrom_cons] at h
      rcases hr : validateRecord r with es | v <;> rw [hr] at h
      · rcases hp : parseBodyFrom (i + 1) rs with ds | vs' <;> rw [hp] at h <;> simp at h
      · rcases hp : parseBodyFrom (i + 1) rs with ds | vs' <;> rw [hp] at h
        · simp at h
        · simp at h
          rw [validateBatch_cons, hr, ih (i + 1) hp, ← h]

lemma parseBody_ok_of_validateBatch {req : List RawRecord} {vs : List PredictRequest}
    (h : validateBatch req = .ok vs) : parseBody req = .ok vs :=
  parseBodyFrom_ok_of_validateBatch 0 h

lemma validateBatch_ok_of_parseBody {req : List RawRecord} {vs : List PredictRequest}
    (h : parseBody req = .ok vs) : validateBatch req = .ok vs :=
  validateBatch_ok_of_parseBodyFrom 0 h

lemma parseBodyFrom_error_of_invalid {req : List RawRecord} (i : ℕ) {j : ℕ}
    (hj : j < req.length) {es : List FieldError}
    (h : validateRecord (req.get ⟨j, hj⟩) = .error es) :
    ∃ ds, parseBodyFrom i req = .error ds ∧ ds ≠ [] ∧ ∀ e ∈ es, (i + j, e) ∈ ds := by
  induction req generalizing i j with
  | nil => simp at hj
  | cons r rs ih =>
      cases j with
      | zero =>
          simp only [List.get] at h
          rw [parseBodyFrom_cons, h]
          have hne : es ≠ [] := validateRecord_error_ne_nil h
          rcases hp : parseBodyFrom (i + 1) rs with ds' | vs'
          · refine ⟨es.map (fun e => (i, e)) ++ ds', rfl, by simp [hne], ?_⟩
            intro e he
            simp only [Nat.add_zero, List.mem_append, List.mem_map]
            exact Or.inl ⟨e, he, rfl⟩
          · refine ⟨es.map (fun e => (i, e)), rfl, by simp [hne], ?_⟩
            intro e he
            simp only [Nat.add_zero, List.mem_map]
            exact ⟨e, he, rfl⟩
      | succ j' =>
          have hj' : j' < rs.length := by simpa using hj
          have h' : validateRecord (rs.get ⟨j', hj'⟩) = .error es := by simpa using h
          obtain ⟨ds', hp, hne', hmem'⟩ := ih (i + 1) hj' h'
          have hidx : i + (j' + 1) = (i + 1) + j' := by omega
          rw [parseBodyFrom_cons, hp]
          rcases hr : validateRecord r with es'' | v
          · refine ⟨es''.map (fun e => (i, e)) ++ ds', rfl, by simp [hne'], ?_⟩
            intro e he
            rw [List.mem_append, hidx]
            exact Or.inr (hmem' e he)
          · refine ⟨ds', rfl, hne', ?_⟩
            intro e he
            rw [hidx]
            exact hmem' e he

lemma parseBody_error_of_invalid {req : List RawRecord} {j : ℕ}
    (hj : j < req.length) {es : List FieldError}
    (h : validateRecord (req.get ⟨j, hj⟩) = .error es) :
    ∃ ds, parseBody req = .error ds ∧ ds ≠ [] ∧ ∀ e ∈ es, (j, e) ∈ ds := by
  obtain ⟨ds, h1, h2, h3⟩ := parseBodyFrom_error_of_invalid 0 hj h
  exact ⟨ds, h1, h2, fun e he => by simpa using h3 e he⟩

lemma predict_parseBody_error {m : Model} {req : List RawRecord}
    {ds : List (ℕ × FieldError)} (h : parseBody req = .error ds) :
    predict m req = .validationError 422 ds := by
  simp [predict, h]

lemma predict_of_validateBatch_ok (m : Model) {req : List RawRecord}
    {vs : List PredictRequest} (h : validateBatch req = .ok vs) :
    predict m req =
      match m.predict vs with
      | .error _ => .error 500 "Prediction error"
      | .ok prediction =>
          match m.predict_proba vs with
          | .error _ => .error 500 "Prediction error"
          | .ok probability => .success prediction (probability.map round3pair) := by
  have hp : parseBody req = .ok vs := parseBody_ok_of_validateBatch h
  have hd : validateBatch (vs.map dictOf) = .ok vs := validateBatch_map_dictOf h
  simp [predict, hp, predictHandler, hd]

lemma predict_success_elim {m : Model} {req : List RawRecord}
    {pred : List ℤ} {prob : List (ℚ × ℚ)}
    (h : predict m req = .success pred prob) :
    ∃ vs probs, validateBatch req = .ok vs ∧ m.predict vs = .ok pred ∧
      m.predict_proba vs = .ok probs ∧ prob = probs.map round3pair := by
  rcases hp : parseBody req with ds | entries
  · rw [predict_parseBody_error hp] at h
    exact absurd h (by simp)
  · have hv : validateBatch req = .ok entries := validateBatch_ok_of_parseBody hp
    rw [predict_of_validateBatch_ok m hv] at h
    split at h
    next e he => exact absurd h (by simp)
    next pr hpr =>
      split at h
      next e he => exact absurd h (by simp)
      next probs hprobs =>
        rw [Response.success.injEq] at h
        exact ⟨entries, probs, hv, h.1 ▸ hpr, hprobs, h.2.symm⟩

lemma predict_rowModel_ok (f : PredictRequest → ℤ) (g : PredictRequest → ℚ × ℚ)
    {req : List RawRecord} {vs : List PredictRequest}
    (h : validateBatch req = .ok vs) :
    predict (rowModel f g) req = .success (vs.map f) ((vs.map g).map round3pair) := by
  rw [predict_of_validateBatch_ok (rowModel f g) h]
  simp [rowModel]

/-! ### Concrete records and models used by the witnesses -/

/-- The spec's §8 sample lead (with an integral page-view rate). -/
def sampleRaw : RawRecord where
  age := .jint 57
  website_visits := .jint 1
  time_spent_on_website := .jnum 582
  page_views_per_visit := .jnum 2
  current_occupation_student := .jbool false
  current_occupation_unemployed := .jbool false
  first_interaction_website := .jbool false
  profile_completed_low := .jbool false
  profile_completed_medium := .jbool false
  last_activity_phone := .jbool false
  last_activity_website := .jbool false
  print_media_type1_yes := .jbool false
  print_media_type2_yes := .jbool false
  digital_media_yes := .jbool false
  educational_channels_yes := .jbool true
  referral_yes := .jbool false

/-- The typed record `sampleRaw` validates to. -/
def sampleRec : PredictRequest where
  age := 57
  website_visits := 1
  time_spent_on_website := 582
  page_views_per_visit := 2
  current_occupation_student := false
  current_occupation_unemployed := false
  first_interaction_website := false
  profile_completed_low := false
  profile_completed_medium := false
  last_activity_phone := false
  last_activity_website := false
  print_media_type1_yes := false
  print_media_type2_yes := false
  digital_media_yes := false
  educational_channels_yes := true
  referral_yes := false

/-- The spec's §8 invalid lead: `age = 150 > 100`. -/
def badRaw : RawRecord := { sampleRaw with age := .jint 150 }

/-- A lead whose `referral_yes` arrives as the string `"true"`. -/
def coercedStrRaw : RawRecord := { sampleRaw with referral_yes := .jstr "true" }

/-- A lead whose `digital_media_yes` arrives as the integer `1`. -/
def coercedIntRaw : RawRecord := { sampleRaw with digital_media_yes := .jint 1 }

/-- A lead whose `age` arrives as the non-integral float `3/2`. -/
def fracRaw : RawRecord := { sampleRaw with age := .jnum (Rat.divInt 3 2) }

/-- A lead whose `website_visits` arrives as the non-integral float `3/2`. -/
def fracWVRaw : RawRecord := { sampleRaw with website_visits := .jnum (Rat.divInt 3 2) }

/-- A lead whose `digital_media_yes` arrives as JSON `null`. -/
def nullMediaRaw : RawRecord := { sampleRaw with digital_media_yes := .jnull }

/-- A lead whose twelve boolean fields arrive as a mix of lax-coercible
values: truthiness strings of varying case, the ints and floats 0/1, and
a plain boolean. -/
def mixedRaw : RawRecord where
  age := .jint 57
  website_visits := .jint 1
  time_spent_on_website := .jnum 582
  page_views_per_visit := .jnum 2
  current_occupation_student := .jstr "True"
  current_occupation_unemployed := .jstr "YES"
  first_interaction_website := .jstr "off"
  profile_completed_low := .jint 1
  profile_completed_medium := .jint 0
  last_activity_phone := .jnum 1
  last_activity_website := .jnum 0
  print_media_type1_yes := .jstr "N"
  print_media_type2_yes := .jstr "ON"
  digital_media_yes := .jbool true
  educational_channels_yes := .jstr "0"
  referral_yes := .jstr "f"

/-- The typed record `mixedRaw` validates to after lax coercion. -/
def mixedRec : PredictRequest where
  age := 57
  website_visits := 1
  time_spent_on_website := 582
  page_views_per_visit := 2
  current_occupation_student := true
  current_occupation_unemployed := true
  first_interaction_website := false
  profile_completed_low := true
  profile_completed_medium := false
  last_activity_phone := true
  last_activity_website := false
  print_media_type1_yes := false
  print_media_type2_yes := true
  digital_media_yes := true
  educational_channels_yes := false
  referral_yes := false

/-- A trivial per-record label function. -/
def constLabel : PredictRequest → ℤ := fun _ => 0

/-- A trivial per-record probability pair. -/
def constProba : PredictRequest → ℚ × ℚ := fun _ => (1, 0)

/-- A model whose matrix-level invocations raise with message `msg`. -/
def failModel (msg : String) : Model where
  predict := fun _ => .error msg
  predict_proba := fun _ => .error msg

/-! ### Claim theorems -/

/-- C7: every raw record whose sixteen declared fields are present with
their declared types and within their declared ranges (0 ≤ age ≤ 100,
website_visits ≥ 0, time_spent_on_website ≥ 0, page_views_per_visit ≥ 0,
twelve booleans) passes `PredictRequest` validation, and the resulting
record's field values equal the input values unchanged. -/
theorem validation_accepts_valid_records (raw : RawRecord) (a w : ℤ) (t pv : ℚ)
    (b₁ b₂ b₃ b₄ b₅ b₆ b₇ b₈ b₉ b₁₀ b₁₁ b₁₂ : Bool)
    (hage : raw.age = .jint a) (ha0 : 0 ≤ a) (ha1 : a ≤ 100)
    (hwv : raw.website_visits = .jint w) (hw : 0 ≤ w)
    (hts : raw.time_spent_on_website = .jnum t) (ht : 0 ≤ t)
    (hpvf : raw.page_views_per_visit = .jnum pv) (hp : 0 ≤ pv)
    (h₁ : raw.current_occupation_student = .jbool b₁)
    (h₂ : raw.current_occupation_unemployed = .jbool b₂)
    (h₃ : raw.first_interaction_website = .jbool b₃)
    (h₄ : raw.profile_completed_low = .jbool b₄)
    (h₅ : raw.profile_completed_medium = .jbool b₅)
    (h₆ : raw.last_activity_phone = .jbool b₆)
    (h₇ : raw.last_activity_website = .jbool b₇)
    (h₈ : raw.print_media_type1_yes = .jbool b₈)
    (h₉ : raw.print_media_type2_yes = .jbool b₉)
    (h₁₀ : raw.digital_media_yes = .jbool b₁₀)
    (h₁₁ : raw.educational_channels_yes = .jbool b₁₁)
    (h₁₂ : raw.referral_yes = .jbool b₁₂) :
    validateRecord raw =
      .ok ⟨a, w, t, pv, b₁, b₂, b₃, b₄, b₅, b₆, b₇, b₈, b₉, b₁₀, b₁₁, b₁₂⟩ := by
  cases raw
  simp only at hage hwv hts hpvf h₁ h₂ h₃ h₄ h₅ h₆ h₇ h₈ h₉ h₁₀ h₁₁ h₁₂
  subst hage hwv hts hpvf h₁ h₂ h₃ h₄ h₅ h₆ h₇ h₈ h₉ h₁₀ h₁₁ h₁₂
  exact validateRecord_typed a w t pv b₁ b₂ b₃ b₄ b₅ b₆ b₇ b₈ b₉ b₁₀ b₁₁ b₁₂
    ha0 ha1 hw ht hp

/-- C7 witness: the §8 sample record validates to itself. -/
theorem validation_accepts_valid_records_witness :
    validateRecord sampleRaw = .ok sampleRec :=
  validation_accepts_valid_records sampleRaw 57 1 582 2
    false false false false false false false false false false true false
    rfl (by norm_num) (by norm_num) rfl (by norm_num) rfl (by norm_num)
    rfl (by norm_num) rfl rfl rfl rfl rfl rfl rfl rfl rfl rfl rfl rfl

/-- C8: validation is idempotent — re-validating the field mapping
(`entry.dict()`) of a record that already passed validation succeeds and
returns the same record. -/
theorem validation_idempotent (raw : RawRecord) (r : PredictRequest)
    (h : validateRecord raw = .ok r) :
    validateRecord (dictOf r) = .ok r := by
  obtain ⟨h0, h1, h2, h3, h4⟩ := validateRecord_ok_bounds h
  exact validateRecord_typed r.age r.website_visits r.time_spent_on_website
    r.page_views_per_visit r.current_occupation_student r.current_occupation_unemployed
    r.first_interaction_website r.profile_completed_low r.profile_completed_medium
    r.last_activity_phone r.last_activity_website r.print_media_type1_yes
    r.print_media_type2_yes r.digital_media_yes r.educational_channels_yes
    r.referral_yes h0 h1 h2 h3 h4

/-- C8 witness: re-validating the validated §8 sample record yields it
unchanged. -/
theorem validation_idempotent_witness :
    validateRecord (dictOf sampleRec) = .ok sampleRec :=
  validation_idempotent sampleRaw sampleRec rfl

/-- C3 counterexample: boolean fields do perform string/int truthiness
coercion — a record with `referral_yes = "true"` or `digital_media_yes = 1`
passes validation (coerced to `true`) instead of failing as claimed. -/
theorem bool_fields_coerce_counterexample :
    coercedStrRaw.referral_yes = .jstr "true" ∧
    validateRecord coercedStrRaw = .ok { sampleRec with referral_yes := true } ∧
    coercedIntRaw.digital_media_yes = .jint 1 ∧
    validateRecord coercedIntRaw = .ok { sampleRec with digital_media_yes := true } :=
  ⟨rfl, rfl, rfl, rfl⟩

/-- C3 (amended): both integer fields (`age`, `website_visits`) reject
non-integral floats, with the failure naming the field; every one of the
twelve boolean fields follows pydantic's lax coercion — booleans pass,
the ints and floats 0/1 and the case-insensitive truthiness strings
('true','t','yes','y','on','1' / 'false','f','no','n','off','0') are
coerced, any other value makes validation fail naming the field — and a
record whose boolean fields all carry coercible values (numeric fields
in range) validates to the coerced booleans. -/
theorem pydantic_lax_coercion :
    (∀ (raw : RawRecord) (q : ℚ), raw.age = .jnum q → q.den ≠ 1 →
        ∃ es, validateRecord raw = .error es ∧
          ("age", "Input should be a valid integer, got a number with a fractional part") ∈ es) ∧
    (∀ (raw : RawRecord) (q : ℚ), raw.website_visits = .jnum q → q.den ≠ 1 →
        ∃ es, validateRecord raw = .error es ∧
          ("website_visits", "Input should be a valid integer, got a number with a fractional part") ∈ es) ∧
    (∀ (raw : RawRecord) (p : String × JsonVal) (m : String),
        p ∈ boolFields raw → coerceBool p.2 = .error m →
        ∃ es, validateRecord raw = .error es ∧ (p.1, m) ∈ es) ∧
    (∀ (raw : RawRecord) (a w : ℤ) (t pv : ℚ)
        (b₁ b₂ b₃ b₄ b₅ b₆ b₇ b₈ b₉ b₁₀ b₁₁ b₁₂ : Bool),
        raw.age = .jint a → 0 ≤ a → a ≤ 100 →
        raw.website_visits = .jint w → 0 ≤ w →
        raw.time_spent_on_website = .jnum t → 0 ≤ t →
        raw.page_views_per_visit = .jnum pv → 0 ≤ pv →
        coerceBool raw.current_occupation_student = .ok b₁ →
        coerceBool raw.current_occupation_unemployed = .ok b₂ →
        coerceBool raw.first_interaction_website = .ok b₃ →
        coerceBool raw.profile_completed_low = .ok b₄ →
        coerceBool raw.profile_completed_medium = .ok b₅ →
        coerceBool raw.last_activity_phone = .ok b₆ →
        coerceBool raw.last_activity_website = .ok b₇ →
        coerceBool raw.print_media_type1_yes = .ok b₈ →
        coerceBool raw.print_media_type2_yes = .ok b₉ →
        coerceBool raw.digital_media_yes = .ok b₁₀ →
        coerceBool raw.educational_channels_yes = .ok b₁₁ →
        coerceBool raw.referral_yes = .ok b₁₂ →
        validateRecord raw =
          .ok ⟨a, w, t, pv, b₁, b₂, b₃, b₄, b₅, b₆, b₇, b₈, b₉, b₁₀, b₁₁, b₁₂⟩) ∧
    (∀ b, coerceBool (.jbool b) = .ok b) ∧
    coerceBool (.jint 0) = .ok false ∧ coerceBool (.jint 1) = .ok true ∧
    (∀ n : ℤ, n ≠ 0 → n ≠ 1 →
        coerceBool (.jint n) =
          .error "Input should be a valid boolean, unable to interpret input") ∧
    coerceBool (.jnum 0) = .ok false ∧ coerceBool (.jnum 1) = .ok true ∧
    (∀ q : ℚ, q ≠ 0 → q ≠ 1 →
        coerceBool (.jnum q) =
          .error "Input should be a valid boolean, unable to interpret input") ∧
    (∀ s, coerceBool (.jstr s) = .ok true ↔ s.data.map Char.toLower ∈ truthyStrings) ∧
    (∀ s, coerceBool (.jstr s) = .ok false ↔ s.data.map Char.toLower ∈ falsyStrings) ∧
    coerceBool .jnull = .error "Input should be a valid boolean" := by
  refine ⟨?_, ?_, ?_, ?_, fun b => rfl, rfl, rfl, ?_, rfl, rfl, ?_, ?_, ?_, rfl⟩
  · intro raw q hage hden
    apply validateRecord_error_age
    rw [hage]
    unfold validate_age coerceInt
    simp [hden]
  · intro raw q hwv hden
    apply validateRecord_error_website_visits
    rw [hwv]
    unfold validate_website_visits coerceInt
    simp [hden]
  · intro raw p m hp hm
    simp only [boolFields, List.mem_cons, List.not_mem_nil, or_false] at hp
    rcases hp with rfl | rfl | rfl | rfl | rfl | rfl | rfl | rfl | rfl | rfl | rfl | rfl
    · exact validateRecord_error_current_occupation_student
        (validate_bool_error_of_coerce _ hm)
    · exact validateRecord_error_current_occupation_unemployed
        (validate_bool_error_of_coerce _ hm)
    · exact validateRecord_error_first_interaction_website
        (validate_bool_error_of_coerce _ hm)
    · exact validateRecord_error_profile_completed_low
        (validate_bool_error_of_coerce _ hm)
    · exact validateRecord_error_profile_completed_medium
        (validate_bool_error_of_coerce _ hm)
    · exact validateRecord_error_last_activity_phone
        (validate_bool_error_of_coerce _ hm)
    · exact validateRecord_error_last_activity_website
        (validate_bool_error_of_coerce _ hm)
    · exact validateRecord_error_print_media_type1_yes
        (validate_bool_error_of_coerce _ hm)
    · exact validateRecord_error_print_media_type2_yes
        (validate_bool_error_of_coerce _ hm)
    · exact validateRecord_error_digital_media_yes
        (validate_bool_error_of_coerce _ hm)
    · exact validateRecord_error_educational_channels_yes
        (validate_bool_error_of_coerce _ hm)
    · exact validateRecord_error_referral
        (validate_bool_error_of_coerce _ hm)
  · intro raw a w t pv b₁ b₂ b₃ b₄ b₅ b₆ b₇ b₈ b₉ b₁₀ b₁₁ b₁₂
      hage ha0 ha1 hwv hw0 hts ht0 hpv hp0 hc1 hc2 hc3 hc4 hc5 hc6 hc7 hc8 hc9 hc10 hc11 hc12
    exact validateRecord_of_fields
      (by rw [hage]; exact validate_age_jint ha0 ha1)
      (by rw [hwv]; exact validate_website_visits_jint hw0)
      (by rw [hts]; exact validate_nonneg_float_jnum ht0)
      (by rw [hpv]; exact validate_nonneg_float_jnum hp0)
      (validate_bool_ok_of_coerce _ hc1) (validate_bool_ok_of_coerce _ hc2)
      (validate_bool_ok_of_coerce _ hc3) (validate_bool_ok_of_coerce _ hc4)
      (validate_bool_ok_of_coerce _ hc5) (validate_bool_ok_of_coerce _ hc6)
      (validate_bool_ok_of_coerce _ hc7) (validate_bool_ok_of_coerce _ hc8)
      (validate_bool_ok_of_coerce _ hc9) (validate_bool_ok_of_coerce _ hc10)
      (validate_bool_ok_of_coerce _ hc11) (validate_bool_ok_of_coerce _ hc12)
  · intro n h0 h1
    simp [coerceBool, h0, h1]
  · intro q h0 h1
    simp [coerceBool, h0, h1]
  · intro s
    simp only [coerceBool]
    unfold str_to_bool
    split_ifs with h1 h2
    · simp [h1]
    · simp [h1]
    · simp [h1]
  · intro s
    simp only [coerceBool]
    unfold str_to_bool
    split_ifs with h1 h2
    · constructor
      · intro hcontra
        exact absurd hcontra (by simp)
      · intro hf
        exfalso
        simp only [truthyStrings, List.mem_cons, List.not_mem_nil, or_false] at h1
        rcases h1 with h | h | h | h | h | h <;> rw [h] at hf <;> exact absurd hf (by decide)
    · simp [h2]
    · simp [h2]

/-- C3 (amended) witness: a fractional `age` fails naming `age`; a
fractional `website_visits` fails naming it; a `null`
`digital_media_yes` fails naming it; a record whose boolean fields mix
"True", "YES", "off", "N", "ON", "0", "f", the ints and floats 0/1 and a
plain boolean validates to the coerced booleans. -/
theorem pydantic_lax_coercion_witness :
    (∃ es, validateRecord fracRaw = .error es ∧
      ("age", "Input should be a valid integer, got a number with a fractional part") ∈ es) ∧
    (∃ es, validateRecord fracWVRaw = .error es ∧
      ("website_visits", "Input should be a valid integer, got a number with a fractional part") ∈ es) ∧
    (∃ es, validateRecord nullMediaRaw = .error es ∧
      ("digital_media_yes", "Input should be a valid boolean") ∈ es) ∧
    validateRecord mixedRaw = .ok mixedRec :=
  ⟨pydantic_lax_coercion.1 fracRaw (Rat.divInt 3 2) rfl (by decide),
   pydantic_lax_coercion.2.1 fracWVRaw (Rat.divInt 3 2) rfl (by decide),
   pydantic_lax_coercion.2.2.1 nullMediaRaw ("digital_media_yes", .jnull)
     "Input should be a valid boolean" (by decide) rfl,
   pydantic_lax_coercion.2.2.2.1 mixedRaw 57 1 582 2
     true true false true false true false false true true false false
     rfl (by decide) (by decide) rfl (by decide) rfl (by decide) rfl (by decide)
     rfl rfl rfl rfl rfl rfl rfl rfl rfl rfl rfl rfl⟩

/-- C1 counterexample: the posted batch `[{age: 150, ...}]` is answered
by FastAPI's request validation with HTTP 422 and a structured detail
list — not with HTTP 400 and a detail string as the claim states; the
handler's `ValidationError` → 400 branch never fires for it. -/
theorem invalid_batch_400_counterexample :
    predict (failModel "unused") [badRaw] =
      .validationError 422 [(0, ("age", "Input should be less than or equal to 100"))] ∧
    ∀ d : String, predict (failModel "unused") [badRaw] ≠ .error 400 d := by
  constructor
  · rfl
  · intro d hcontra
    rw [(rfl : predict (failModel "unused") [badRaw] =
      .validationError 422 [(0, ("age", "Input should be less than or equal to 100"))])]
      at hcontra
    exact Response.noConfusion hcontra

/-- C1 (amended): a batch containing a record that fails a field
constraint is rejected by FastAPI's validation of the
`List[PredictRequest]` body with HTTP 422; the structured detail list is
non-empty and contains, for the offending record index, every failing
field with its violated-constraint message; no success response is
possible, no HTTP 400 detail string is produced, and the response does
not depend on the model (no record is processed — no partial success). -/
theorem invalid_batch_rejected (m : Model) (req : List RawRecord)
    (j : ℕ) (hj : j < req.length) (es : List FieldError)
    (hr : validateRecord (req.get ⟨j, hj⟩) = .error es) :
    ∃ detail, detail ≠ [] ∧
      predict m req = .validationError 422 detail ∧
      (∀ e ∈ es, (j, e) ∈ detail) ∧
      (∀ p q, predict m req ≠ .success p q) ∧
      (∀ d, predict m req ≠ .error 400 d) ∧
      (∀ m' : Model, predict m' req = predict m req) := by
  obtain ⟨ds, hds, hne, hmem⟩ := parseBody_error_of_invalid hj hr
  refine ⟨ds, hne, predict_parseBody_error hds, hmem, ?_, ?_, ?_⟩
  · intro p q hcontra
    rw [predict_parseBody_error hds] at hcontra
    exact Response.noConfusion hcontra
  · intro d hcontra
    rw [predict_parseBody_error hds] at hcontra
    exact Response.noConfusion hcontra
  · intro m'
    rw [predict_parseBody_error hds, predict_parseBody_error hds]

/-- C1 (amended) witness: the batch `[{age: 150, ...}]` is rejected with
422 and a structured detail naming `age` at record index 0, whatever the
model. -/
theorem invalid_batch_rejected_witness :
    ∃ detail, detail ≠ [] ∧
      predict (failModel "unused") [badRaw] = .validationError 422 detail ∧
      (∀ e ∈ [(("age" : String), "Input should be less than or equal to 100")],
        ((0 : ℕ), e) ∈ detail) ∧
      (∀ p q, predict (failModel "unused") [badRaw] ≠ .success p q) ∧
      (∀ d, predict (failModel "unused") [badRaw] ≠ .error 400 d) ∧
      (∀ m' : Model, predict m' [badRaw] = predict (failModel "unused") [badRaw]) :=
  invalid_batch_rejected (failModel "unused") [badRaw] 0 (by norm_num)
    [("age", "Input should be less than or equal to 100")] rfl

/-- C2: the empty batch `[]` is accepted: the service answers HTTP 200
with empty prediction and probability arrays, for every row-wise model. -/
theorem empty_batch_ok (f : PredictRequest → ℤ) (g : PredictRequest → ℚ × ℚ) :
    predict (rowModel f g) [] = .success [] [] := rfl

/-- C4: for a batch of N valid records, the prediction and probability
arrays both have length N, and entry i is the model's `predict` /
rounded `predict_proba` output for the validated form of input record i,
in submission order. -/
theorem batch_order_preserved (f : PredictRequest → ℤ) (g : PredictRequest → ℚ × ℚ)
    (req : List RawRecord) (vs : List PredictRequest)
    (h : validateBatch req = .ok vs) :
    predict (rowModel f g) req = .success (vs.map f) ((vs.map g).map round3pair) ∧
    (vs.map f).length = req.length ∧
    ((vs.map g).map round3pair).length = req.length ∧
    ∀ i (hi : i < req.length) (hv : i < vs.length),
      validateRecord (req.get ⟨i, hi⟩) = .ok (vs.get ⟨i, hv⟩) ∧
      (vs.map f).get? i = some (f (vs.get ⟨i, hv⟩)) ∧
      ((vs.map g).map round3pair).get? i = some (round3pair (g (vs.get ⟨i, hv⟩))) := by
  have hlen := validateBatch_ok_length h
  refine ⟨predict_rowModel_ok f g h, by simp [hlen], by simp [hlen], ?_⟩
  intro i hi hv
  refine ⟨validateBatch_ok_get h i hi hv, ?_, ?_⟩
  · rw [List.get?_map, List.get?_eq_get hv]
    rfl
  · rw [List.get?_map, List.get?_map, List.get?_eq_get hv]
    rfl

/-- C4 witness: the singleton valid batch is answered in order with one
prediction and one rounded probability pair. -/
theorem batch_order_preserved_witness :
    predict (rowModel constLabel constProba) [sampleRaw] =
      .success ([sampleRec].map constLabel)
        (([sampleRec].map constProba).map round3pair) ∧
    ([sampleRec].map constLabel).length = 1 ∧
    validateRecord sampleRaw = .ok sampleRec := by
  have T := batch_order_preserved constLabel constProba [sampleRaw] [sampleRec] rfl
  exact ⟨T.1, T.2.1, ((T.2.2.2) 0 (by norm_num) (by norm_num)).1⟩

/-- C5: in every successful response of a row-wise model whose
probability pairs are non-negative and sum to 1, each returned
probability is an integer multiple of 1/1000 (exactly three decimal
places), lies in [0,1], and each pair sums to 1 within 1/1000. -/
theorem probabilities_rounded (f : PredictRequest → ℤ) (g : PredictRequest → ℚ × ℚ)
    (req : List RawRecord) (pred : List ℤ) (prob : List (ℚ × ℚ))
    (hg : ∀ r, 0 ≤ (g r).1 ∧ 0 ≤ (g r).2 ∧ (g r).1 + (g r).2 = 1)
    (h : predict (rowModel f g) req = .success pred prob) :
    ∀ p ∈ prob, (∃ k : ℤ, p.1 = (k : ℚ) / 1000) ∧ (∃ k : ℤ, p.2 = (k : ℚ) / 1000) ∧
      0 ≤ p.1 ∧ p.1 ≤ 1 ∧ 0 ≤ p.2 ∧ p.2 ≤ 1 ∧ |p.1 + p.2 - 1| ≤ 1/1000 := by
  obtain ⟨vs, probs, hv, hp, hq, hprob⟩ := predict_success_elim h
  have hprobs : probs = vs.map g := by
    have : (rowModel f g).predict_proba vs = .ok (vs.map g) := rfl
    rw [this] at hq
    exact ((Except.ok.injEq _ _).mp hq).symm
  subst hprob
  intro p hp'
  rw [hprobs] at hp'
  rw [List.mem_map] at hp'
  obtain ⟨x, hx, rfl⟩ := hp'
  rw [List.mem_map] at hx
  obtain ⟨r, hr, rfl⟩ := hx
  obtain ⟨h1, h2, h3⟩ := hg r
  exact ⟨⟨roundHalfEven ((g r).1 * 1000), rfl⟩, ⟨roundHalfEven ((g r).2 * 1000), rfl⟩,
    round3_nonneg h1, round3_le_one (by linarith), round3_nonneg h2,
    round3_le_one (by linarith), round3_sum h3⟩

/-- C5 witness: the rounded pair for the sample record's probabilities
satisfies the three-decimal, range and sum properties. -/
theorem probabilities_rounded_witness :
    (∃ k : ℤ, (round3pair ((1 : ℚ), (0 : ℚ))).1 = (k : ℚ) / 1000) ∧
    (∃ k : ℤ, (round3pair ((1 : ℚ), (0 : ℚ))).2 = (k : ℚ) / 1000) ∧
    0 ≤ (round3pair ((1 : ℚ), (0 : ℚ))).1 ∧ (round3pair ((1 : ℚ), (0 : ℚ))).1 ≤ 1 ∧
    0 ≤ (round3pair ((1 : ℚ), (0 : ℚ))).2 ∧ (round3pair ((1 : ℚ), (0 : ℚ))).2 ≤ 1 ∧
    |(round3pair ((1 : ℚ), (0 : ℚ))).1 + (round3pair ((1 : ℚ), (0 : ℚ))).2 - 1| ≤ 1/1000 :=
  probabilities_rounded constLabel constProba [sampleRaw] [0] [round3pair (1, 0)]
    (fun _ => ⟨by norm_num [constProba], by norm_num [constProba], by norm_num [constProba]⟩)
    (predict_rowModel_ok constLabel constProba
      (rfl : validateBatch [sampleRaw] = Except.ok [sampleRec]))
    (round3pair (1, 0)) (by simp [constProba])

/-- C6: when the batch validates but the model's `predict` or
`predict_proba` invocation raises, the service answers HTTP 500 with the
fixed body detail "Prediction error" — identical for every model and
every exception content, which is never included in the response. -/
theorem model_failure_masked (m : Model) (req : List RawRecord)
    (vs : List PredictRequest) (hv : validateBatch req = .ok vs)
    (hfail : (∃ e, m.predict vs = .error e) ∨
      (∃ pr e, m.predict vs = .ok pr ∧ m.predict_proba vs = .error e)) :
    predict m req = .error 500 "Prediction error" ∧
    ∀ (m' : Model), ((∃ e, m'.predict vs = .error e) ∨
        (∃ pr e, m'.predict vs = .ok pr ∧ m'.predict_proba vs = .error e)) →
      predict m' req = predict m req := by
  have main : ∀ (m'' : Model), ((∃ e, m''.predict vs = .error e) ∨
      (∃ pr e, m''.predict vs = .ok pr ∧ m''.predict_proba vs = .error e)) →
      predict m'' req = .error 500 "Prediction error" := by
    intro m'' hf
    rw [predict_of_validateBatch_ok m'' hv]
    rcases hf with ⟨e, he⟩ | ⟨pr, e, hpr, he⟩
    · rw [he]
    · rw [hpr, he]
  refine ⟨main m hfail, fun m' hf' => ?_⟩
  rw [main m' hf', main m hfail]

/-- C6 witness: two models raising with different exception texts both
produce the identical fixed 500 response. -/
theorem model_failure_masked_witness :
    predict (failModel "boom") [sampleRaw] = .error 500 "Prediction error" ∧
    predict (failModel "bang") [sampleRaw] = predict (failModel "boom") [sampleRaw] := by
  have T := model_failure_masked (failModel "boom") [sampleRaw] [sampleRec] rfl
    (Or.inl ⟨"boom", rfl⟩)
  exact ⟨T.1, T.2 (failModel "bang") (Or.inl ⟨"bang", rfl⟩)⟩

/-! ### Helper lemmas about combine_data -/

lemma probColumn_nil_left (probs : List (List ℚ)) : probColumn [] probs = some [] := by
  cases probs <;> rfl

lemma probColumn_nil_right (p : ℤ) (ps : List ℤ) : probColumn (p :: ps) [] = some [] := rfl

lemma probColumn_cons (p : ℤ) (ps : List ℤ) (pr : List ℚ) (prs : List (List ℚ)) :
    probColumn (p :: ps) (pr :: prs) =
      match pyIndex pr p with
      | none => none
      | some q => (probColumn ps prs).map (q :: ·) := rfl

lemma probColumn_spec {preds : List ℤ} {probs : List (List ℚ)} {pcol : List ℚ}
    (h : probColumn preds probs = some pcol) :
    pcol.length = min preds.length probs.length ∧
    ∀ i (hi : i < preds.length) (hp : i < probs.length),
      pcol.get? i = pyIndex (probs.get ⟨i, hp⟩) (preds.get ⟨i, hi⟩) := by
  induction preds generalizing probs pcol with
  | nil =>
      rw [probColumn_nil_left] at h
      obtain rfl : pcol = [] := by simpa using h.symm
      simp
  | cons p ps ih =>
      cases probs with
      | nil =>
          rw [probColumn_nil_right] at h
          obtain rfl : pcol = [] := by simpa using h.symm
          simp
      | cons pr prs =>
          rw [probColumn_cons] at h
          rcases hpy : pyIndex pr p with _ | q <;> rw [hpy] at h
          · simp at h
          · rcases hrec : probColumn ps prs with _ | pcol' <;> rw [hrec] at h
            · simp at h
            · simp at h
              obtain rfl : pcol = q :: pcol' := h.symm
              obtain ⟨ihlen, ihget⟩ := ih hrec
              constructor
              · simp [ihlen, Nat.succ_min_succ]
              · intro i hi hp
                cases i with
                | zero => simpa using hpy.symm
                | succ j =>
                    simp only [List.get?, List.get]
                    exact ihget j (by simpa using hi) (by simpa using hp)

lemma combine_data_some_elim {α : Type} {inp : List α} {preds : List ℤ}
    {probs : List (List ℚ)} {df : Frame α}
    (h : (combine_data (some inp) (some preds) (some probs)).1 = some df) :
    inp.length = preds.length ∧ inp.length = probs.length ∧
    ((df = ⟨[], [], []⟩ ∧ inp.length = 0) ∨
      (df = ⟨inp, preds, df.probability⟩ ∧ probColumn preds probs = some df.probability)) := by
  simp only [combine_data] at h
  split_ifs at h with hlen hemp
  · push_neg at hlen
    have hdf : df = ⟨[], [], []⟩ := by simpa using h.symm
    exact ⟨hlen.1, hlen.2, Or.inl ⟨hdf, hemp.1⟩⟩
  · push_neg at hlen
    refine ⟨hlen.1, hlen.2, ?_⟩
    rcases hpc : probColumn preds probs with _ | pcol <;> rw [hpc] at h
    · exact absurd h (by simp)
    · have hdf : df = ⟨inp, preds, pcol⟩ := by simpa using h.symm
      subst hdf
      exact Or.inr ⟨rfl, rfl⟩

/-- C9: whenever `combine_data` returns a DataFrame, its `probability`
column at row i is `probabilities[i][predictions[i]]` — the probability
of the predicted class — for every row i. -/
theorem combine_data_prob_col {α : Type} {inp : List α} {preds : List ℤ}
    {probs : List (List ℚ)} {df : Frame α}
    (h : (combine_data (some inp) (some preds) (some probs)).1 = some df) :
    df.probability.length = preds.length ∧
    ∀ i (hi : i < preds.length) (hp : i < probs.length),
      df.probability.get? i = pyIndex (probs.get ⟨i, hp⟩) (preds.get ⟨i, hi⟩) := by
  obtain ⟨hl1, hl2, hcase⟩ := combine_data_some_elim h
  rcases hcase with ⟨rfl, hz⟩ | ⟨hdf, hpc⟩
  · constructor
    · simp [← hl1, hz]
    · intro i hi hp
      rw [← hl1, hz] at hi
      exact absurd hi (by simp)
  · obtain ⟨plen, pget⟩ := probColumn_spec hpc
    refine ⟨?_, pget⟩
    rw [plen, ← hl1, ← hl2]
    simp

/-- C9 witness: for predictions `[1]` and probabilities `[[0, 1]]` the
probability column holds the predicted class's probability `1`. -/
theorem combine_data_prob_col_witness :
    (combine_data (some [(7 : ℕ)]) (some [1]) (some [[0, 1]])).1 =
      some ⟨[7], [1], [1]⟩ ∧
    (⟨[7], [1], [1]⟩ : Frame ℕ).probability.length = 1 ∧
    (⟨[7], [1], [1]⟩ : Frame ℕ).probability.get? 0 = pyIndex [0, 1] 1 := by
  have h : (combine_data (some [(7 : ℕ)]) (some [1]) (some [[0, 1]])).1 =
      some ⟨[7], [1], [1]⟩ := rfl
  have T := combine_data_prob_col h
  exact ⟨h, T.1, T.2 0 (by norm_num) (by norm_num)⟩

/-- C10: `combine_data` guards its inputs — any `None` argument yields
`(None, "Missing input data, predictions, or probabilities")`; unequal
lengths yield `(None, length-mismatch message)`; three empty lists yield
an empty DataFrame with no error.  (The embedding is a total function:
no exception escapes to the caller.) -/
theorem combine_data_guards {α : Type} (inp : Option (List α))
    (preds : Option (List ℤ)) (probs : Option (List (List ℚ))) :
    ((inp = none ∨ preds = none ∨ probs = none) →
        combine_data inp preds probs =
          (none, some "Missing input data, predictions, or probabilities")) ∧
    (∀ li lp lpr, inp = some li → preds = some lp → probs = some lpr →
        ¬(li.length = lp.length ∧ li.length = lpr.length) →
        combine_data inp preds probs =
          (none, some "Length mismatch between input data, predictions, and probabilities")) ∧
    combine_data (some ([] : List α)) (some []) (some []) =
      (some ⟨[], [], []⟩, none) := by
  refine ⟨?_, ?_, rfl⟩
  · intro hnone
    rcases inp with _ | li <;> rcases preds with _ | lp <;> rcases probs with _ | lpr <;>
      first
        | rfl
        | simp at hnone
  · intro li lp lpr h1 h2 h3 hne
    subst h1 h2 h3
    simp only [combine_data]
    rw [if_pos]
    tauto

/-- C10 witness: the three guard behaviours at concrete inputs. -/
theorem combine_data_guards_witness :
    combine_data (none : Option (List ℕ)) (some []) (some []) =
      (none, some "Missing input data, predictions, or probabilities") ∧
    combine_data (some [(5 : ℕ)]) (some []) (some []) =
      (none, some "Length mismatch between input data, predictions, and probabilities") ∧
    combine_data (some ([] : List ℕ)) (some []) (some []) =
      (some ⟨[], [], []⟩, none) :=
  ⟨(combine_data_guards none (some []) (some [])).1 (Or.inl rfl),
   (combine_data_guards (some [(5 : ℕ)]) (some []) (some [])).2.1 [5] [] []
     rfl rfl rfl (by norm_num),
   (combine_data_guards (some ([] : List ℕ)) (some []) (some [])).2.2⟩
